import Mathlib

/-!
Verification development for the feed-pagination, de-duplication and
optimistic-mutation logic of the expo-social-app repository.

The repository implements the same paginated-feed logic in several screen
variants.  Each variant is embedded below as a pure state-transition
system:

* `transformForPostCard`   — src/services/micropostApi.tsx
* `ProfileState` / `profileStep` — src/app/(main)/profile.tsx (the
  ref-based profile screen with a loadedPostIds set)
* `UPState` / `upStep`     — src/hooks/usePagination.ts
* `P15State` / `p15Step`   — the profile variant in src/unnamed/part_015
  (lines 252-330) that replaces the list on refresh
* `SliceState` / `sliceReduce` — src/redux/microposts/micropostsSlice.tsx
* `HomeState`              — src/app/(main)/home.tsx (setFeeds / getPosts)
* `onLikeAfterFailure`     — the PostCard onLike handler in
  src/unnamed/part_012

Network calls are modelled by splitting each fetch into a synchronous
start step (which flips the loading flags and records the pending
request) and a resolve/fail step (the promise callback).  A counter
`fetchCount` records how many API invocations have been issued.
-/

namespace ExpoSocial

/-- An entry of a micropost's postLikes array (src/services/micropostApi.tsx). -/
structure LikeRec where
  userId : String
deriving DecidableEq

/-- An entry of a micropost's comments array: an aggregate count. -/
structure CommentCount where
  count : Nat
deriving DecidableEq

/-- The user object built by transformForPostCard. -/
structure UserObj where
  id : String
  name : String
  avatar : Option String
deriving DecidableEq

/-- A micropost as declared in src/services/micropostApi.tsx.  Optional
TS fields become Option; fields of the interface that no claim-relevant
code reads (size, created_at, updated_at, title, description, videoId,
channelTitle) are omitted. -/
structure Micropost where
  id : Nat
  content : String
  gravatar_id : Option String
  image : Option String
  timestamp : String
  user_id : String
  userId : Option String
  user_name : Option String
  body : Option String
  file : Option String
  user : Option UserObj
  postLikes : Option (List LikeRec)
  comments : Option (List CommentCount)
deriving DecidableEq

/-- JS `micropost.user_name || "User"`: undefined and the empty string
are falsy. -/
def userNameOrDefault (n : Option String) : String :=
  match n with
  | some s => if s = "" then "User" else s
  | none => "User"

/-- JS `micropost.gravatar_id ? url : undefined` with string
interpolation of the gravatar id. -/
def gravatarUrl (g : Option String) : Option String :=
  match g with
  | some s =>
      if s = "" then none
      else some ("https://www.gravatar.com/avatar/" ++ s ++ "?s=200")
  | none => none

/-- transformForPostCard (src/services/micropostApi.tsx, lines 209-225):
spread the input and overwrite body, file, userId, user, postLikes and
comments.  JS `x || d` on an array is `Option.getD` because every array
is truthy. -/
def transformForPostCard (m : Micropost) : Micropost :=
  { m with
    body := some m.content
    file := m.image
    userId := some m.user_id
    user := some ⟨m.user_id, userNameOrDefault m.user_name, gravatarUrl m.gravatar_id⟩
    postLikes := some (m.postLikes.getD [])
    comments := some (m.comments.getD [⟨0⟩]) }

/-- A feed item after transformForPostCard, as merged by the screens.
All merge logic in the screens keys solely on `id`, so the embedding
keeps just the id. -/
structure Post where
  id : Nat
deriving DecidableEq

/-- ListResponse (src/services/micropostApi.tsx): one page of feed items
plus aggregate metadata. -/
structure ListResponse where
  feed_items : List Post
  followers : Nat
  following : Nat
  gravatar : String
  micropost : Nat
  total_count : Nat
deriving DecidableEq

/-- The Metadata record kept by the profile screens. -/
structure Metadata where
  followers : Nat
  following : Nat
  micropost : Nat
  total_count : Nat
deriving DecidableEq

/-- Metadata extracted from a page response (the setMetadata call sites). -/
def mdOf (r : ListResponse) : Metadata :=
  ⟨r.followers, r.following, r.micropost, r.total_count⟩

/-! ## Profile screen, src/app/(main)/profile.tsx

State of the ref-based profile screen.  `loadedPostIds` is the JS
`Set<number>` modelled as a list with membership as the set semantics;
`pending` is the request whose `await micropostApi.getAll` has not yet
settled; `fetchCount` counts issued getAll calls. -/

structure PendingReq where
  page : Nat
  isRefresh : Bool
deriving DecidableEq

structure ProfileState where
  microposts : List Post
  loadedPostIds : List Nat
  currentPage : Nat
  totalPages : Nat
  metadata : Option Metadata
  loading : Bool
  refreshing : Bool
  isRequestInProgress : Bool
  pending : Option PendingReq
  fetchCount : Nat
deriving DecidableEq

/-- POSTS_PER_PAGE = 5 (profile.tsx line 32). -/
def POSTS_PER_PAGE : Nat := 5

/-- calculateTotalPages: Math.ceil(totalCount / POSTS_PER_PAGE). -/
def calculateTotalPages (totalCount : Nat) : Nat :=
  (totalCount + POSTS_PER_PAGE - 1) / POSTS_PER_PAGE

/-- The synchronous prefix of fetchMicroposts (profile.tsx lines 56-68):
early return when a request is in progress, otherwise set the in-progress
flag and the loading/refreshing spinner and issue the API call. -/
def profileFetchStart (s : ProfileState) (page : Nat) (isRefresh : Bool) : ProfileState :=
  if s.isRequestInProgress then s
  else
    { s with
      isRequestInProgress := true
      refreshing := if isRefresh then true else s.refreshing
      loading := if isRefresh then s.loading else if s.refreshing then s.loading else true
      pending := some ⟨page, isRefresh⟩
      fetchCount := s.fetchCount + 1 }

/-- The filter applied to every fetched page by profile.tsx (lines 91
and 105): keep the posts whose id is not yet in the known-id set. -/
def dedupAgainst (known : List Nat) (page : List Post) : List Post :=
  page.filter fun p => decide (p.id ∉ known)

/-- The success continuation of fetchMicroposts (profile.tsx lines
71-116 and the finally block 119-123): update metadata and totalPages,
then merge the page — on refresh, prepend the posts whose id is not in
loadedPostIds; otherwise append them; either way update currentPage only
when at least one new post arrived.  The finally block's releases are
written into every branch. -/
def profileResolve (s : ProfileState) (r : ListResponse) : ProfileState :=
  match s.pending with
  | none => s
  | some req =>
    if req.isRefresh then
      if 0 < (dedupAgainst s.loadedPostIds r.feed_items).length then
        { s with
          metadata := some (mdOf r)
          totalPages := calculateTotalPages r.total_count
          microposts := dedupAgainst s.loadedPostIds r.feed_items ++ s.microposts
          loadedPostIds :=
            s.loadedPostIds ++ (dedupAgainst s.loadedPostIds r.feed_items).map Post.id
          currentPage :=
            ((dedupAgainst s.loadedPostIds r.feed_items).length + s.microposts.length
              + POSTS_PER_PAGE - 1) / POSTS_PER_PAGE
          isRequestInProgress := false
          loading := false
          refreshing := false
          pending := none }
      else
        { s with
          metadata := some (mdOf r)
          totalPages := calculateTotalPages r.total_count
          isRequestInProgress := false
          loading := false
          refreshing := false
          pending := none }
    else
      if 0 < (dedupAgainst s.loadedPostIds r.feed_items).length then
        { s with
          metadata := some (mdOf r)
          totalPages := calculateTotalPages r.total_count
          microposts := s.microposts ++ dedupAgainst s.loadedPostIds r.feed_items
          loadedPostIds :=
            s.loadedPostIds ++ (dedupAgainst s.loadedPostIds r.feed_items).map Post.id
          currentPage := req.page
          isRequestInProgress := false
          loading := false
          refreshing := false
          pending := none }
      else
        { s with
          metadata := some (mdOf r)
          totalPages := calculateTotalPages r.total_count
          isRequestInProgress := false
          loading := false
          refreshing := false
          pending := none }

/-- The catch/finally path of fetchMicroposts (profile.tsx lines
117-123): the error is only logged; the finally block releases the flags. -/
def profileFail (s : ProfileState) : ProfileState :=
  match s.pending with
  | none => s
  | some _ =>
    { s with
      isRequestInProgress := false
      loading := false
      refreshing := false
      pending := none }

/-- Operations on the profile screen: the mount effect (lines 129-135),
handleLoadMore (146-154), handleRefresh (138-143), and settlement of the
outstanding fetch. -/
inductive PEvent where
  | loadInitial
  | loadMore
  | refresh
  | resolve (r : ListResponse)
  | fail
deriving DecidableEq

def profileStep (s : ProfileState) (e : PEvent) : ProfileState :=
  match e with
  | .loadInitial =>
      profileFetchStart { s with loadedPostIds := [], currentPage := 1 } 1 false
  | .loadMore =>
      if ¬s.isRequestInProgress ∧ s.currentPage < s.totalPages ∧ ¬s.refreshing then
        profileFetchStart s (s.currentPage + 1) false
      else s
  | .refresh =>
      if ¬s.isRequestInProgress then profileFetchStart s 1 true else s
  | .resolve r => profileResolve s r
  | .fail => profileFail s

/-- Freshly mounted screen state: empty list and set, page refs at 1. -/
def profileInit : ProfileState :=
  ⟨[], [], 1, 1, none, false, false, false, none, 0⟩

/-- The state right after the mount effect has reset the refs and issued
the initial fetch. -/
def profileMounted : ProfileState :=
  profileStep profileInit .loadInitial

def profileRun (es : List PEvent) : ProfileState :=
  es.foldl profileStep profileMounted

/-- The page ids carried by a resolve event (empty for other events). -/
def pageIds : PEvent → List Nat
  | .resolve r => r.feed_items.map Post.id
  | _ => []

/-! ## usePagination hook, src/hooks/usePagination.ts

Instantiated at the feed endpoint: apiFunction is micropostApi.getAll,
extractData reads feed_items and extractMeta reads the aggregate
metadata.  `pending` is a FIFO of unresolved loadData calls — the hook
never prevents two calls from being outstanding at once. -/

structure UPReq where
  pageNum : Nat
  shouldAppend : Bool
deriving DecidableEq

structure UPState where
  data : List Post
  meta : Option Metadata
  page : Nat
  loading : Bool
  refreshing : Bool
  errorSet : Bool
  hasMore : Bool
  pending : List UPReq
  fetchCount : Nat
deriving DecidableEq

/-- initialPage = 1 (the hook's default, used by every caller). -/
def upInitialPage : Nat := 1

/-- Initial hook state (usePagination.ts lines 39-45): empty data,
page = initialPage, hasMore = true. -/
def upInit : UPState :=
  ⟨[], none, upInitialPage, false, false, false, true, [], 0⟩

/-- The synchronous prefix of loadData (lines 48-57): set loading when
appending, refreshing otherwise, clear the error, fire the request.
There is no in-flight guard inside loadData itself. -/
def upLoadData (s : UPState) (pageNum : Nat) (shouldAppend : Bool) : UPState :=
  { s with
    loading := if shouldAppend then true else s.loading
    refreshing := if shouldAppend then s.refreshing else true
    errorSet := false
    pending := s.pending ++ [⟨pageNum, shouldAppend⟩]
    fetchCount := s.fetchCount + 1 }

/-- The success body of loadData (lines 57-71): replace or append the
extracted page, store the metadata, and recompute hasMore as
extractedData.length > 0. -/
def upApplySuccess (s : UPState) (r : ListResponse) (shouldAppend : Bool) : UPState :=
  { s with
    data := if shouldAppend then s.data ++ r.feed_items else r.feed_items
    meta := some (mdOf r)
    hasMore := decide (0 < r.feed_items.length) }

/-- Hook operations: refresh (lines 97-100) resets page to initialPage
and reloads; loadMore (lines 103-110) is guarded by loading and hasMore
and advances page before fetching; resolve/fail settle the oldest
outstanding request, running the finally block (lines 81-84). -/
inductive UPEvent where
  | loadMore
  | refresh
  | resolve (r : ListResponse)
  | fail
deriving DecidableEq

def upStep (s : UPState) (e : UPEvent) : UPState :=
  match e with
  | .loadMore =>
      if ¬s.loading ∧ s.hasMore then
        upLoadData { s with page := s.page + 1 } (s.page + 1) true
      else s
  | .refresh =>
      upLoadData { s with page := upInitialPage } upInitialPage false
  | .resolve r =>
      match s.pending with
      | [] => s
      | req :: rest =>
          { upApplySuccess s r req.shouldAppend with
            pending := rest
            loading := false
            refreshing := false }
  | .fail =>
      match s.pending with
      | [] => s
      | _ :: rest =>
          { s with
            errorSet := true
            pending := rest
            loading := false
            refreshing := false }

def upRun (es : List UPEvent) : UPState :=
  es.foldl upStep upInit

/-! ## Profile variant of src/unnamed/part_015 (lines 252-330)

This variant keeps no known-id set.  On success it replaces the list
when not appending and appends the whole page otherwise, computes
hasMore from the stale pre-merge length, and sets page to the fetched
page number whenever it was appending. -/

structure P15State where
  microposts : List Post
  page : Nat
  hasMore : Bool
  loading : Bool
  refreshing : Bool
  metadata : Option Metadata
  pending : Option UPReq
  fetchCount : Nat
deriving DecidableEq

def p15Init : P15State :=
  ⟨[], 1, true, false, false, none, none, 0⟩

/-- fetchMicroposts entry (part_015 lines 266-272): early return when
loading and not refreshing, otherwise set loading and issue the call. -/
def p15FetchStart (s : P15State) (pageNum : Nat) (shouldAppend : Bool) : P15State :=
  if s.loading ∧ ¬s.refreshing then s
  else
    { s with
      loading := true
      pending := some ⟨pageNum, shouldAppend⟩
      fetchCount := s.fetchCount + 1 }

/-- Success body (part_015 lines 274-303) plus the finally block: merge
(replace or append the whole page, no id filtering), set metadata,
recompute hasMore from the captured pre-merge microposts.length, and set
page to the fetched page number when appending. -/
def p15Resolve (s : P15State) (r : ListResponse) : P15State :=
  match s.pending with
  | none => s
  | some req =>
    let transformed := r.feed_items
    let totalLoaded :=
      if req.shouldAppend then s.microposts.length + transformed.length
      else transformed.length
    { s with
      microposts := if req.shouldAppend then s.microposts ++ transformed else transformed
      metadata := some (mdOf r)
      hasMore := decide (0 < transformed.length) && decide (totalLoaded < r.total_count)
      page := if req.shouldAppend then req.pageNum else s.page
      loading := false
      refreshing := false
      pending := none }

/-- Failure path (part_015 lines 304-309): log only, release the flags. -/
def p15Fail (s : P15State) : P15State :=
  match s.pending with
  | none => s
  | some _ => { s with loading := false, refreshing := false, pending := none }

inductive P15Event where
  | loadInitial
  | loadMore
  | refresh
  | resolve (r : ListResponse)
  | fail
deriving DecidableEq

/-- Screen operations: the mount effect calls fetchMicroposts(1,false);
handleRefresh (lines 320-323) sets refreshing then fetches page 1 not
appending; handleLoadMore (lines 326-330) is guarded by loading and
hasMore and fetches page+1 appending. -/
def p15Step (s : P15State) (e : P15Event) : P15State :=
  match e with
  | .loadInitial => p15FetchStart s 1 false
  | .loadMore =>
      if ¬s.loading ∧ s.hasMore then p15FetchStart s (s.page + 1) true else s
  | .refresh => p15FetchStart { s with refreshing := true } 1 false
  | .resolve r => p15Resolve s r
  | .fail => p15Fail s

def p15Run (es : List P15Event) : P15State :=
  es.foldl p15Step p15Init

/-! ## Home screen, src/app/(main)/home.tsx

setFeeds (lines 140-163) appends the whole transformed page with no id
check; getPosts (lines 188-219) returns early when hasMore is false,
bumps the module-level limit variable, and when total_count is truthy
sets hasMore false only if the pre-append feedItems.length equals
total_count, then appends the whole page.  `page` starts at 1 and is
never changed by the screen. -/

structure HomeState where
  page : Nat
  feedItems : List Post
  hasMore : Bool
  limitVar : Nat
deriving DecidableEq

def homeInit : HomeState := ⟨1, [], true, 0⟩

/-- setFeeds success body: feedItems := prev ++ page (the feed_items
field is always present in a ListResponse, so the else branch that
clears the list is unreachable here). -/
def homeSetFeeds (s : HomeState) (r : ListResponse) : HomeState :=
  { s with feedItems := s.feedItems ++ r.feed_items }

/-- getPosts: early return on hasMore = false; limit += 5; then in the
success callback, when total_count is truthy, set hasMore false if the
captured feedItems.length equals total_count and append the page;
when total_count is 0 nothing is updated. -/
def homeGetPosts (s : HomeState) (r : ListResponse) : HomeState :=
  if ¬s.hasMore then s
  else
    let s1 := { s with limitVar := s.limitVar + 5 }
    if r.total_count ≠ 0 then
      let s2 :=
        if s1.feedItems.length = r.total_count then { s1 with hasMore := false } else s1
      { s2 with feedItems := s2.feedItems ++ r.feed_items }
    else s1

/-! ## PostCard onLike, src/unnamed/part_012 (lines 41-83)

`liked` is whether likes.filter(userId === currentUser.id) has a first
element.  onLike optimistically removes or appends the like entry before
awaiting the backend call; the catch block only shows an alert, so the
state after a failed call is exactly the optimistic state. -/

def likedBy (likes : List LikeRec) (uid : String) : Bool :=
  decide ((likes.filter fun l => decide (l.userId = uid)) ≠ [])

/-- The likes state after onLike whose backend call failed: the
optimistic update from lines 63-77 with no rollback in the catch. -/
def onLikeAfterFailure (likes : List LikeRec) (uid : String) : List LikeRec :=
  if likedBy likes uid then likes.filter fun l => decide (l.userId ≠ uid)
  else likes ++ [⟨uid⟩]

/-! ## Redux slice, src/redux/microposts/micropostsSlice.tsx

The slice stores transformed microposts.  Every reducer of the slice is
embedded, so frame properties can quantify over all slice operations. -/

inductive SliceStatus where
  | idle
  | loading
  | succeeded
  | failed
deriving DecidableEq

structure SliceState where
  microposts : List Micropost
  currentMicropost : Option Micropost
  status : SliceStatus
  error : Option String
  hasMore : Bool
  metadata : Option Metadata
deriving DecidableEq

/-- initialState (micropostsSlice.tsx lines 21-28). -/
def sliceInit : SliceState :=
  ⟨[], none, .idle, none, true, none⟩

/-- The payload of fetchMicroposts.fulfilled: the transformed page and
the metadata extracted from the response (thunk lines 31-53). -/
structure FetchPayload where
  microposts : List Micropost
  metadata : Metadata
deriving DecidableEq

/-- JS Array.prototype.find followed by in-place mutation: modify the
first element matching the id, if any. -/
def modifyFirst (f : Micropost → Micropost) (id : Nat) : List Micropost → List Micropost
  | [] => []
  | m :: rest => if m.id = id then f m :: rest else m :: modifyFirst f id rest

/-- incrementCommentCount on one micropost (lines 144-150): create
[{count: 1}] when comments is missing or empty, else bump comments[0]. -/
def bumpComments (m : Micropost) : Micropost :=
  match m.comments with
  | none => { m with comments := some [⟨1⟩] }
  | some [] => { m with comments := some [⟨1⟩] }
  | some (c :: rest) => { m with comments := some (⟨c.count + 1⟩ :: rest) }

/-- decrementCommentCount on one micropost (lines 162-165): decrement
comments[0] only when comments is nonempty and its count is positive. -/
def dropComment (m : Micropost) : Micropost :=
  match m.comments with
  | some (c :: rest) =>
      if 0 < c.count then { m with comments := some (⟨c.count - 1⟩ :: rest) } else m
  | _ => m

/-- likeMicropost.fulfilled on one micropost (lines 246-251): create the
postLikes array if missing and push the user id. -/
def pushLike (uid : String) (m : Micropost) : Micropost :=
  { m with postLikes := some (m.postLikes.getD [] ++ [⟨uid⟩]) }

/-- unlikeMicropost.fulfilled on one micropost (lines 265-267): filter
out the user's like entries when postLikes is present. -/
def removeLike (uid : String) (m : Micropost) : Micropost :=
  match m.postLikes with
  | none => m
  | some l => { m with postLikes := some (l.filter fun e => decide (e.userId ≠ uid)) }

/-- The actions the slice reducer handles (reducers and extraReducers of
micropostsSlice.tsx). -/
inductive SliceAction where
  | resetMicroposts
  | clearCurrentMicropost
  | incrementCommentCount (id : Nat)
  | decrementCommentCount (id : Nat)
  | fetchPending
  | fetchFulfilled (p : FetchPayload)
  | fetchRejected (msg : String)
  | fetchByIdPending
  | fetchByIdFulfilled (m : Micropost)
  | fetchByIdRejected (msg : String)
  | createFulfilled (m : Micropost)
  | updateFulfilled (m : Micropost)
  | deleteFulfilled (id : Nat)
  | likeFulfilled (id : Nat) (uid : String)
  | unlikeFulfilled (id : Nat) (uid : String)
deriving DecidableEq

/-- The slice reducer (micropostsSlice.tsx lines 128-274), one case per
reducer.  fetchMicroposts.fulfilled assigns metadata from the payload
before computing hasMore = microposts.length < (metadata?.total_count or
0), so the comparison is against the payload's total_count. -/
def sliceReduce (s : SliceState) (a : SliceAction) : SliceState :=
  match a with
  | .resetMicroposts =>
      { s with microposts := [], hasMore := true, status := .idle, error := none }
  | .clearCurrentMicropost => { s with currentMicropost := none }
  | .incrementCommentCount id =>
      { s with
        microposts := modifyFirst bumpComments id s.microposts
        currentMicropost :=
          match s.currentMicropost with
          | some c => if c.id = id then some (bumpComments c) else some c
          | none => none }
  | .decrementCommentCount id =>
      { s with
        microposts := modifyFirst dropComment id s.microposts
        currentMicropost :=
          match s.currentMicropost with
          | some c => if c.id = id then some (dropComment c) else some c
          | none => none }
  | .fetchPending => { s with status := .loading }
  | .fetchFulfilled p =>
      { s with
        status := .succeeded
        microposts := p.microposts
        metadata := some p.metadata
        hasMore := decide (p.microposts.length < p.metadata.total_count)
        error := none }
  | .fetchRejected msg => { s with status := .failed, error := some msg }
  | .fetchByIdPending => { s with status := .loading }
  | .fetchByIdFulfilled m =>
      { s with status := .succeeded, currentMicropost := some m, error := none }
  | .fetchByIdRejected msg => { s with status := .failed, error := some msg }
  | .createFulfilled m =>
      { s with
        microposts := m :: s.microposts
        metadata :=
          match s.metadata with
          | some md =>
              some { md with micropost := md.micropost + 1, total_count := md.total_count + 1 }
          | none => none }
  | .updateFulfilled m =>
      { s with
        microposts := modifyFirst (fun _ => m) m.id s.microposts
        currentMicropost :=
          match s.currentMicropost with
          | some c => if c.id = m.id then some m else some c
          | none => none }
  | .deleteFulfilled id =>
      { s with
        microposts := s.microposts.filter fun m => decide (m.id ≠ id)
        currentMicropost :=
          match s.currentMicropost with
          | some c => if c.id = id then none else some c
          | none => none
        metadata :=
          match s.metadata with
          | some md =>
              some { md with micropost := md.micropost - 1, total_count := md.total_count - 1 }
          | none => none }
  | .likeFulfilled id uid =>
      { s with
        microposts := modifyFirst (pushLike uid) id s.microposts
        currentMicropost :=
          match s.currentMicropost with
          | some c => if c.id = id then some (pushLike uid c) else some c
          | none => none }
  | .unlikeFulfilled id uid =>
      { s with
        microposts := modifyFirst (removeLike uid) id s.microposts
        currentMicropost :=
          match s.currentMicropost with
          | some c => if c.id = id then some (removeLike uid c) else some c
          | none => none }

/-! ## Invariants of the profile screen merge -/

/-- The dedup-merge invariant of the profile screen: the list carries no
duplicate ids and every id in the list is recorded in the known-id set. -/
def ProfileInv (s : ProfileState) : Prop :=
  (s.microposts.map Post.id).Nodup ∧ ∀ p ∈ s.microposts, p.id ∈ s.loadedPostIds

lemma merge_preserves (old : List Post) (known : List Nat) (page : List Post)
    (h1 : (old.map Post.id).Nodup) (h2 : ∀ p ∈ old, p.id ∈ known)
    (h3 : (page.map Post.id).Nodup) :
    ((dedupAgainst known page ++ old).map Post.id).Nodup ∧
      (∀ p ∈ dedupAgainst known page ++ old,
        p.id ∈ known ++ (dedupAgainst known page).map Post.id) ∧
      ((old ++ dedupAgainst known page).map Post.id).Nodup ∧
      (∀ p ∈ old ++ dedupAgainst known page,
        p.id ∈ known ++ (dedupAgainst known page).map Post.id) := by
  have hsub : List.Sublist ((dedupAgainst known page).map Post.id) (page.map Post.id) :=
    (List.filter_sublist page).map Post.id
  have hnd : ((dedupAgainst known page).map Post.id).Nodup := h3.sublist hsub
  have hmem : ∀ p ∈ dedupAgainst known page, p.id ∉ known := by
    intro p hp
    have := List.of_mem_filter hp
    simpa using this
  have hdisj : ∀ a ∈ (dedupAgainst known page).map Post.id, a ∉ old.map Post.id := by
    intro a ha hb
    obtain ⟨p, hp, rfl⟩ := List.mem_map.1 ha
    obtain ⟨q, hq, hqa⟩ := List.mem_map.1 hb
    exact hmem p hp (hqa ▸ h2 q hq)
  refine ⟨?_, ?_, ?_, ?_⟩
  · rw [List.map_append, List.nodup_append]
    exact ⟨hnd, h1, fun a ha hb => hdisj a ha hb⟩
  · intro p hp
    rcases List.mem_append.1 hp with h | h
    · exact List.mem_append.2 (Or.inr (List.mem_map_of_mem Post.id h))
    · exact List.mem_append.2 (Or.inl (h2 p h))
  · rw [List.map_append, List.nodup_append]
    exact ⟨h1, hnd, fun a ha hb => hdisj a hb ha⟩
  · intro p hp
    rcases List.mem_append.1 hp with h | h
    · exact List.mem_append.2 (Or.inl (h2 p h))
    · exact List.mem_append.2 (Or.inr (List.mem_map_of_mem Post.id h))

lemma profileInv_resolve (s : ProfileState) (r : ListResponse)
    (h : ProfileInv s) (hr : (r.feed_items.map Post.id).Nodup) :
    ProfileInv (profileResolve s r) := by
  obtain ⟨h1, h2⟩ := h
  have key := merge_preserves s.microposts s.loadedPostIds r.feed_items h1 h2 hr
  rcases hps : s.pending with _ | req
  · simp only [profileResolve, hps]
    exact ⟨h1, h2⟩
  · simp only [profileResolve, hps]
    split
    · split
      · exact ⟨key.1, key.2.1⟩
      · exact ⟨h1, h2⟩
    · split
      · exact ⟨key.2.2.1, key.2.2.2⟩
      · exact ⟨h1, h2⟩

lemma profileInv_step (s : ProfileState) (e : PEvent)
    (h : ProfileInv s) (hne : e ≠ .loadInitial) (hpg : (pageIds e).Nodup) :
    ProfileInv (profileStep s e) := by
  cases e with
  | loadInitial => exact absurd rfl hne
  | loadMore =>
      simp only [profileStep]
      split
      · unfold profileFetchStart
        split <;> exact h
      · exact h
  | refresh =>
      simp only [profileStep]
      split
      · unfold profileFetchStart
        split <;> exact h
      · exact h
  | resolve r => exact profileInv_resolve s r h (by simpa [pageIds] using hpg)
  | fail =>
      simp only [profileStep]
      unfold profileFail
      rcases s.pending with _ | _
      · exact h
      · exact h

lemma profileInv_run (es : List PEvent) (s : ProfileState) (h : ProfileInv s)
    (hne : ∀ e ∈ es, e ≠ PEvent.loadInitial) (hpg : ∀ e ∈ es, (pageIds e).Nodup) :
    ProfileInv (es.foldl profileStep s) := by
  induction es generalizing s with
  | nil => exact h
  | cons e es ih =>
      exact ih (profileStep s e)
        (profileInv_step s e h (hne e (List.mem_cons_self e es)) (hpg e (List.mem_cons_self e es)))
        (fun x hx => hne x (List.mem_cons_of_mem _ hx))
        (fun x hx => hpg x (List.mem_cons_of_mem _ hx))

/-! ## Claim theorems -/

/-- Claim C10: transformForPostCard is idempotent — applying it twice is
structurally equal to applying it once, because body, file, userId,
user, postLikes and comments are recomputed from fields the transform
leaves unchanged. -/
theorem c10_transform_idempotent (m : Micropost) :
    transformForPostCard (transformForPostCard m) = transformForPostCard m := rfl

/-- Claim C1 counterexample: the home screen (src/app/(main)/home.tsx)
merges pages with no known-id check, so the mount-time setFeeds followed
by one getPosts that returns the same page (home.tsx always fetches the
same page value) produces two entries with id 1. -/
theorem c1_home_duplicates :
    ¬ ((homeGetPosts (homeSetFeeds homeInit ⟨[⟨1⟩], 0, 0, "", 2, 2⟩)
          ⟨[⟨1⟩], 0, 0, "", 2, 2⟩).feedItems.map Post.id).Nodup := by decide

/-- Claim C1 (amended): on the profile screen of src/app/(main)/profile.tsx,
for every sequence of loadMore/refresh operations and fetch settlements
after the mount-time initial load — excluding re-runs of the mount
effect, which clears loadedPostIds while keeping the list — if every
resolved page is internally free of duplicate ids, then the items list
never contains two entries with equal id: each merge appends or prepends
only items whose id is not already in the known-id set.  The home
screen's merges lack the known-id check and do duplicate. -/
theorem c1_profile_no_duplicates (es : List PEvent)
    (hne : ∀ e ∈ es, e ≠ PEvent.loadInitial)
    (hpg : ∀ e ∈ es, (pageIds e).Nodup) :
    ((profileRun es).microposts.map Post.id).Nodup := by
  have hinit : ProfileInv profileMounted := by
    constructor <;> simp [profileMounted, profileStep, profileInit, profileFetchStart]
  exact (profileInv_run es profileMounted hinit hne hpg).1

/-- Witness for C1: a concrete run — initial page resolves with ids
[2, 1], then loadMore resolves an overlapping page [1, 0] — ends with
the duplicate-free list [2, 1, 0]. -/
theorem c1_profile_no_duplicates_witness :
    (∀ e ∈ [PEvent.resolve ⟨[⟨2⟩, ⟨1⟩], 0, 0, "", 2, 6⟩, PEvent.loadMore,
            PEvent.resolve ⟨[⟨1⟩, ⟨0⟩], 0, 0, "", 2, 6⟩],
        e ≠ PEvent.loadInitial) ∧
    (∀ e ∈ [PEvent.resolve ⟨[⟨2⟩, ⟨1⟩], 0, 0, "", 2, 6⟩, PEvent.loadMore,
            PEvent.resolve ⟨[⟨1⟩, ⟨0⟩], 0, 0, "", 2, 6⟩],
        (pageIds e).Nodup) ∧
    ((profileRun [PEvent.resolve ⟨[⟨2⟩, ⟨1⟩], 0, 0, "", 2, 6⟩, PEvent.loadMore,
            PEvent.resolve ⟨[⟨1⟩, ⟨0⟩], 0, 0, "", 2, 6⟩]).microposts.map Post.id).Nodup :=
  ⟨by decide, by decide, c1_profile_no_duplicates _ (by decide) (by decide)⟩

/-- Claim C2 counterexample: in usePagination, refresh is not gated by
the loading flag — invoking refresh while the loadMore fetch is still
unresolved issues a second API invocation, so loadMore and refresh are
not mutually exclusive under one in-flight flag. -/
theorem c2_usePagination_refresh_not_exclusive :
    (upStep upInit .loadMore).loading = true ∧
    (upStep upInit .loadMore).pending ≠ [] ∧
    (upStep (upStep upInit .loadMore) .refresh).fetchCount =
      (upStep upInit .loadMore).fetchCount + 1 := by decide

/-- Claim C2 (amended): a second loadMore while the first is unresolved
is a complete no-op (one API invocation in total) in both
implementations; in profile.tsx the single isRequestInProgress flag also
makes loadMore, refresh and the mount load mutually exclusive (no fetch
is issued while one is in flight), but in usePagination only loadMore is
gated — refresh issues a fetch regardless of the loading flag. -/
theorem c2_in_flight_exclusivity :
    (∀ s : ProfileState, s.isRequestInProgress = true →
      profileStep s .loadMore = s ∧ profileStep s .refresh = s ∧
      (profileStep s .loadInitial).fetchCount = s.fetchCount) ∧
    (∀ s : UPState, s.loading = true → upStep s .loadMore = s) := by
  constructor
  · intro s h
    refine ⟨?_, ?_, ?_⟩
    · simp [profileStep, h]
    · simp [profileStep, h]
    · simp [profileStep, profileFetchStart, h]
  · intro s h
    simp [upStep, h]

/-- Witness for C2 at concrete in-flight states. -/
theorem c2_in_flight_exclusivity_witness :
    profileStep { profileInit with isRequestInProgress := true } .loadMore =
      { profileInit with isRequestInProgress := true } ∧
    upStep { upInit with loading := true } .loadMore = { upInit with loading := true } :=
  ⟨(c2_in_flight_exclusivity.1 _ rfl).1, c2_in_flight_exclusivity.2 _ rfl⟩

/-- likedBy is true exactly when the likes array has an entry of the
given user. -/
lemma likedBy_true_iff (likes : List LikeRec) (uid : String) :
    likedBy likes uid = true ↔ ∃ l ∈ likes, l.userId = uid := by
  unfold likedBy
  rw [decide_eq_true_eq]
  constructor
  · intro h
    rcases List.exists_mem_of_ne_nil _ h with ⟨l, hl⟩
    rw [List.mem_filter] at hl
    exact ⟨l, hl.1, by simpa using hl.2⟩
  · rintro ⟨l, hl, he⟩
    intro hnil
    have hmem : l ∈ likes.filter fun l => decide (l.userId = uid) :=
      List.mem_filter.2 ⟨hl, by simpa using he⟩
    simp [hnil] at hmem

/-- Claim C3 counterexample: onLike with a failing backend call does not
roll back.  Starting with no likes, after the failed like call the post
is marked liked by the current user and the like count is 1 — not the
pre-call values. -/
theorem c3_onLike_no_rollback :
    ¬ (likedBy (onLikeAfterFailure [] "u1") "u1" = likedBy [] "u1" ∧
       (onLikeAfterFailure [] "u1").length = ([] : List LikeRec).length) := by decide

/-- Claim C3 (amended): after onLike whose like/unlike call fails, the
optimistic update persists — likedByCurrentUser is the negation of its
pre-call value, and the like count grew by one when liking (resp. shrank
when unliking); the catch block performs no rollback. -/
theorem c3_onLike_failure_keeps_flip (likes : List LikeRec) (uid : String) :
    likedBy (onLikeAfterFailure likes uid) uid = !likedBy likes uid ∧
    (likedBy likes uid = false →
      (onLikeAfterFailure likes uid).length = likes.length + 1) ∧
    (likedBy likes uid = true →
      (onLikeAfterFailure likes uid).length < likes.length) := by
  by_cases h : likedBy likes uid = true
  · refine ⟨?_, ?_, ?_⟩
    · rw [h]
      simp only [onLikeAfterFailure, h, if_true, Bool.not_true]
      rw [Bool.eq_false_iff]
      intro hc
      rw [likedBy_true_iff] at hc
      obtain ⟨l, hl, he⟩ := hc
      rw [List.mem_filter] at hl
      have hne : l.userId ≠ uid := by simpa using hl.2
      exact hne he
    · intro hf
      rw [h] at hf
      exact absurd hf (by simp)
    · intro _
      simp only [onLikeAfterFailure, h, if_true]
      rw [List.length_filter_lt_length_iff_exists]
      obtain ⟨l, hl, he⟩ := (likedBy_true_iff likes uid).1 h
      exact ⟨l, hl, by simpa using he⟩
  · rw [Bool.not_eq_true] at h
    refine ⟨?_, ?_, ?_⟩
    · rw [h]
      simp only [onLikeAfterFailure, h, Bool.false_eq_true, if_false, Bool.not_false]
      rw [likedBy_true_iff]
      exact ⟨⟨uid⟩, by simp, rfl⟩
    · intro _
      simp [onLikeAfterFailure, h]
    · intro hc
      rw [h] at hc
      exact absurd hc (by simp)

/-- Witness for C3: a post liked by u1; the failed unlike leaves it
un-liked with a smaller count. -/
theorem c3_onLike_failure_keeps_flip_witness :
    likedBy (onLikeAfterFailure [⟨"u1"⟩] "u1") "u1" = !likedBy [⟨"u1"⟩] "u1" ∧
    (onLikeAfterFailure [⟨"u1"⟩] "u1").length < ([⟨"u1"⟩] : List LikeRec).length :=
  ⟨(c3_onLike_failure_keeps_flip [⟨"u1"⟩] "u1").1,
   (c3_onLike_failure_keeps_flip [⟨"u1"⟩] "u1").2.2 (by decide)⟩

/-- Claim C4 counterexample: usePagination's loadMore advances page
before the fetch, so after a failed loadMore the pagination cursor is
not what it was before the call — from the initial state (page 1), a
failed loadMore leaves page = 2 even though no data arrived. -/
theorem c4_usePagination_failed_loadMore_advances_page :
    (upRun [.loadMore, .fail]).page = 2 ∧ upInit.page = 1 ∧
    (upRun [.loadMore, .fail]).data = upInit.data := by decide

/-- Claim C4 (amended): on failure both implementations leave the items
list (and in profile.tsx also the known-id set, currentPage, totalPages
and metadata) unchanged and release the in-flight flags — and a
successful resolve also ends with the flag released; however,
usePagination's loadMore advances page before fetching, so a failed
loadMore keeps the data but leaves page incremented. -/
theorem c4_failure_preserves_state :
    (∀ (s : ProfileState) (req : PendingReq), s.pending = some req →
      (profileFail s).microposts = s.microposts ∧
      (profileFail s).loadedPostIds = s.loadedPostIds ∧
      (profileFail s).currentPage = s.currentPage ∧
      (profileFail s).totalPages = s.totalPages ∧
      (profileFail s).metadata = s.metadata ∧
      (profileFail s).isRequestInProgress = false) ∧
    (∀ (s : ProfileState) (r : ListResponse) (req : PendingReq), s.pending = some req →
      (profileResolve s r).isRequestInProgress = false) ∧
    (∀ (s : UPState), s.pending ≠ [] →
      (upStep s .fail).data = s.data ∧ (upStep s .fail).meta = s.meta ∧
      (upStep s .fail).hasMore = s.hasMore ∧ (upStep s .fail).page = s.page ∧
      (upStep s .fail).loading = false ∧ (upStep s .fail).refreshing = false) ∧
    (∀ (s : UPState), s.loading = false → s.hasMore = true →
      (upStep (upStep s .loadMore) .fail).data = s.data ∧
      (upStep (upStep s .loadMore) .fail).page = s.page + 1) := by
  refine ⟨?_, ?_, ?_, ?_⟩
  · intro s req h
    simp [profileFail, h]
  · intro s r req h
    simp only [profileResolve, h]
    split
    · split <;> rfl
    · split <;> rfl
  · intro s h
    rcases hp : s.pending with _ | ⟨a, rest⟩
    · exact absurd hp h
    · simp [upStep, hp]
  · intro s h1 h2
    rcases hp : s.pending with _ | ⟨a, rest⟩ <;>
      simp [upStep, upLoadData, h1, h2, hp]

/-- Witness for C4 at concrete states with a pending request. -/
theorem c4_failure_preserves_state_witness :
    (profileFail
        { profileInit with pending := some ⟨1, false⟩, isRequestInProgress := true }).microposts =
      ({ profileInit with pending := some ⟨1, false⟩, isRequestInProgress := true }
        : ProfileState).microposts ∧
    (profileResolve
      { profileInit with pending := some ⟨1, false⟩, isRequestInProgress := true }
      ⟨[], 0, 0, "", 0, 0⟩).isRequestInProgress = false ∧
    (upStep { upInit with pending := [⟨1, false⟩] } .fail).data =
      ({ upInit with pending := [⟨1, false⟩] } : UPState).data ∧
    (upStep (upStep upInit .loadMore) .fail).page = upInit.page + 1 :=
  ⟨(c4_failure_preserves_state.1 _ ⟨1, false⟩ rfl).1,
   c4_failure_preserves_state.2.1 _ ⟨[], 0, 0, "", 0, 0⟩ ⟨1, false⟩ rfl,
   (c4_failure_preserves_state.2.2.1 _ (by decide)).1,
   (c4_failure_preserves_state.2.2.2 upInit rfl rfl).2⟩

/-- Claim C5 counterexample: the part_015 profile variant replaces the
list on refresh.  With the list [3, 2, 1] loaded ([A,B,C] newest-first)
and a refresh response [4, 3, 2] ([D,A,B]), the result is [4, 3, 2] —
item 1 (C) is lost — not the [4, 3, 2, 1] the claim requires. -/
theorem c5_part15_refresh_replaces :
    (p15Run [.loadInitial, .resolve ⟨[⟨3⟩, ⟨2⟩, ⟨1⟩], 0, 0, "", 3, 3⟩]).microposts =
      [⟨3⟩, ⟨2⟩, ⟨1⟩] ∧
    (p15Run [.loadInitial, .resolve ⟨[⟨3⟩, ⟨2⟩, ⟨1⟩], 0, 0, "", 3, 3⟩,
      .refresh, .resolve ⟨[⟨4⟩, ⟨3⟩, ⟨2⟩], 0, 0, "", 4, 4⟩]).microposts =
      [⟨4⟩, ⟨3⟩, ⟨2⟩] ∧
    ([⟨4⟩, ⟨3⟩, ⟨2⟩] : List Post) ≠ [⟨4⟩, ⟨3⟩, ⟨2⟩, ⟨1⟩] := by decide

/-- Claim C5 (amended): on the profile screen of src/app/(main)/profile.tsx
a resolving refresh prepends exactly the response items whose id is not
yet known, leaving the existing list in place (so [A,B,C] with response
[D,A,B] yields [D,A,B,C]); but the part_015 profile variant replaces the
whole list with the fetched page on refresh, dropping C. -/
theorem c5_refresh_merge_shapes :
    (∀ (s : ProfileState) (r : ListResponse) (p : Nat),
      s.pending = some ⟨p, true⟩ →
      0 < (dedupAgainst s.loadedPostIds r.feed_items).length →
      (profileResolve s r).microposts =
        dedupAgainst s.loadedPostIds r.feed_items ++ s.microposts) ∧
    (∀ (s : P15State) (r : ListResponse) (p : Nat),
      s.pending = some ⟨p, false⟩ →
      (p15Resolve s r).microposts = r.feed_items) := by
  constructor
  · intro s r p h hlen
    simp [profileResolve, h, hlen]
  · intro s r p h
    simp [p15Resolve, h]

/-- Witness for C5: the claim's concrete scenario on profile.tsx —
[A,B,C] = ids [3,2,1] with refresh response [D,A,B] = ids [4,3,2]
produces [D,A,B,C] = ids [4,3,2,1]. -/
theorem c5_refresh_merge_shapes_witness :
    (profileResolve
        { profileInit with
            microposts := [⟨3⟩, ⟨2⟩, ⟨1⟩], loadedPostIds := [3, 2, 1],
            isRequestInProgress := true, pending := some ⟨1, true⟩ }
        ⟨[⟨4⟩, ⟨3⟩, ⟨2⟩], 0, 0, "", 4, 4⟩).microposts = [⟨4⟩, ⟨3⟩, ⟨2⟩, ⟨1⟩] ∧
    (p15Resolve
        { p15Init with
            microposts := [⟨3⟩, ⟨2⟩, ⟨1⟩], loading := true, pending := some ⟨1, false⟩ }
        ⟨[⟨4⟩, ⟨3⟩, ⟨2⟩], 0, 0, "", 4, 4⟩).microposts = [⟨4⟩, ⟨3⟩, ⟨2⟩] :=
  ⟨by
    have h := c5_refresh_merge_shapes.1
      { profileInit with
          microposts := [⟨3⟩, ⟨2⟩, ⟨1⟩], loadedPostIds := [3, 2, 1],
          isRequestInProgress := true, pending := some ⟨1, true⟩ }
      ⟨[⟨4⟩, ⟨3⟩, ⟨2⟩], 0, 0, "", 4, 4⟩ 1 rfl (by decide)
    simpa using h,
   by
    have h := c5_refresh_merge_shapes.2
      { p15Init with
          microposts := [⟨3⟩, ⟨2⟩, ⟨1⟩], loading := true, pending := some ⟨1, false⟩ }
      ⟨[⟨4⟩, ⟨3⟩, ⟨2⟩], 0, 0, "", 4, 4⟩ 1 rfl
    simpa using h⟩

/-- Claim C6 counterexample: usePagination's refresh resets the cursor —
after loading up to page 3, a refresh sets page back to 1, so refresh
does not leave currentPage unchanged. -/
theorem c6_usePagination_refresh_resets_page :
    (upRun [.loadMore, .resolve ⟨[⟨9⟩], 0, 0, "", 9, 9⟩,
            .loadMore, .resolve ⟨[⟨8⟩], 0, 0, "", 9, 9⟩]).page = 3 ∧
    (upRun [.loadMore, .resolve ⟨[⟨9⟩], 0, 0, "", 9, 9⟩,
            .loadMore, .resolve ⟨[⟨8⟩], 0, 0, "", 9, 9⟩, .refresh]).page = 1 := by decide

/-- Claim C6 (amended): refresh does touch the pagination cursor —
usePagination's refresh always resets page to the initial page (1), and
profile.tsx's resolving refresh recomputes currentPage as
ceil(totalLoaded / 5) whenever it merged at least one new item, leaving
it unchanged only when the refresh contributed nothing new. -/
theorem c6_refresh_cursor :
    (∀ s : UPState, (upStep s .refresh).page = upInitialPage) ∧
    (∀ (s : ProfileState) (r : ListResponse) (p : Nat),
      s.pending = some ⟨p, true⟩ →
      0 < (dedupAgainst s.loadedPostIds r.feed_items).length →
      (profileResolve s r).currentPage =
        ((dedupAgainst s.loadedPostIds r.feed_items).length + s.microposts.length
          + POSTS_PER_PAGE - 1) / POSTS_PER_PAGE) ∧
    (∀ (s : ProfileState) (r : ListResponse) (p : Nat),
      s.pending = some ⟨p, true⟩ →
      dedupAgainst s.loadedPostIds r.feed_items = [] →
      (profileResolve s r).currentPage = s.currentPage) := by
  refine ⟨?_, ?_, ?_⟩
  · intro s
    simp [upStep, upLoadData]
  · intro s r p h hlen
    simp [profileResolve, h, hlen]
  · intro s r p h hnil
    simp [profileResolve, h, hnil]

/-- Witness for C6: a profile state on page 1 with 5 loaded posts whose
refresh brings one new post moves currentPage to ceil(6/5) = 2. -/
theorem c6_refresh_cursor_witness :
    (upStep { upInit with page := 3 } .refresh).page = 1 ∧
    (profileResolve
        { profileInit with
            microposts := [⟨5⟩, ⟨4⟩, ⟨3⟩, ⟨2⟩, ⟨1⟩],
            loadedPostIds := [5, 4, 3, 2, 1], currentPage := 1,
            isRequestInProgress := true, pending := some ⟨1, true⟩ }
        ⟨[⟨6⟩, ⟨5⟩], 0, 0, "", 6, 6⟩).currentPage = 2 :=
  ⟨c6_refresh_cursor.1 { upInit with page := 3 },
   by
    have h := c6_refresh_cursor.2.1
      { profileInit with
          microposts := [⟨5⟩, ⟨4⟩, ⟨3⟩, ⟨2⟩, ⟨1⟩],
          loadedPostIds := [5, 4, 3, 2, 1], currentPage := 1,
          isRequestInProgress := true, pending := some ⟨1, true⟩ }
      ⟨[⟨6⟩, ⟨5⟩], 0, 0, "", 6, 6⟩ 1 rfl (by decide)
    simpa using h⟩

/-- A sample micropost used by concrete scenarios. -/
def mp (i : Nat) : Micropost :=
  ⟨i, "c", none, none, "t", "u", none, none, none, none, none, none, none⟩

/-- Claim C7 counterexample: in the slice, hasMore goes back to true
without any create — after a fulfilled fetch with 1 item and
total_count 1 (hasMore = false), resetMicroposts sets hasMore = true
while leaving total_count untouched. -/
theorem c7_hasMore_not_monotone :
    (sliceReduce sliceInit (.fetchFulfilled ⟨[mp 1], ⟨0, 0, 1, 1⟩⟩)).hasMore = false ∧
    (sliceReduce (sliceReduce sliceInit (.fetchFulfilled ⟨[mp 1], ⟨0, 0, 1, 1⟩⟩))
        .resetMicroposts).hasMore = true ∧
    (sliceReduce (sliceReduce sliceInit (.fetchFulfilled ⟨[mp 1], ⟨0, 0, 1, 1⟩⟩))
        .resetMicroposts).metadata =
      (sliceReduce sliceInit (.fetchFulfilled ⟨[mp 1], ⟨0, 0, 1, 1⟩⟩)).metadata := by
  decide

/-- Claim C7 (amended): hasMore is not monotone and createMicropost is
not what re-enables it — across all slice actions, hasMore is changed
only by resetMicroposts (which unconditionally sets it true) and by
fetchMicroposts.fulfilled (which recomputes it as page length <
payload total_count); every other action, including
createMicropost.fulfilled, leaves hasMore unchanged. -/
theorem c7_hasMore_updates (s : SliceState) (a : SliceAction) :
    (sliceReduce s a).hasMore =
      match a with
      | .resetMicroposts => true
      | .fetchFulfilled p => decide (p.microposts.length < p.metadata.total_count)
      | _ => s.hasMore := by
  cases a <;> rfl

/-- Claim C8 counterexample: the part_015 profile variant advances page
on every successful append — after loading page 1 ([10, 9], total 10), a
loadMore whose page 2 response is empty still sets page = 2, although
zero new items were merged. -/
theorem c8_part15_page_advances_on_empty :
    (p15Run [.loadInitial, .resolve ⟨[⟨10⟩, ⟨9⟩], 0, 0, "", 10, 10⟩]).page = 1 ∧
    (p15Run [.loadInitial, .resolve ⟨[⟨10⟩, ⟨9⟩], 0, 0, "", 10, 10⟩,
        .loadMore, .resolve ⟨[], 0, 0, "", 10, 10⟩]).page = 2 ∧
    (p15Run [.loadInitial, .resolve ⟨[⟨10⟩, ⟨9⟩], 0, 0, "", 10, 10⟩,
        .loadMore, .resolve ⟨[], 0, 0, "", 10, 10⟩]).microposts =
      (p15Run [.loadInitial, .resolve ⟨[⟨10⟩, ⟨9⟩], 0, 0, "", 10, 10⟩]).microposts := by
  decide

/-- Claim C8 (amended): the profile screen of src/app/(main)/profile.tsx
behaves as claimed — a resolving non-refresh fetch leaves currentPage
unchanged when the page contributed zero new items and sets it to the
fetched page number when at least one new item was merged; but the
part_015 variant sets page to the fetched page number on every
successful append, even for an empty page. -/
theorem c8_currentPage_advance :
    (∀ (s : ProfileState) (r : ListResponse) (req : PendingReq),
      s.pending = some req → req.isRefresh = false →
      dedupAgainst s.loadedPostIds r.feed_items = [] →
      (profileResolve s r).currentPage = s.currentPage) ∧
    (∀ (s : ProfileState) (r : ListResponse) (req : PendingReq),
      s.pending = some req → req.isRefresh = false →
      0 < (dedupAgainst s.loadedPostIds r.feed_items).length →
      (profileResolve s r).currentPage = req.page) ∧
    (∀ (s : P15State) (r : ListResponse) (p : Nat),
      s.pending = some ⟨p, true⟩ →
      (p15Resolve s r).page = p) := by
  refine ⟨?_, ?_, ?_⟩
  · intro s r req h hf hnil
    simp [profileResolve, h, hf, hnil]
  · intro s r req h hf hlen
    simp [profileResolve, h, hf, hlen]
  · intro s r p h
    simp [p15Resolve, h]

/-- Witness for C8 at concrete states: a stale page repeating known id 7
does not move the profile's currentPage; a fresh page does; part_015
moves page even for an empty page. -/
theorem c8_currentPage_advance_witness :
    (profileResolve
        { profileInit with
            microposts := [⟨7⟩], loadedPostIds := [7], currentPage := 1,
            isRequestInProgress := true, pending := some ⟨2, false⟩ }
        ⟨[⟨7⟩], 0, 0, "", 1, 1⟩).currentPage = 1 ∧
    (profileResolve
        { profileInit with
            microposts := [⟨7⟩], loadedPostIds := [7], currentPage := 1,
            isRequestInProgress := true, pending := some ⟨2, false⟩ }
        ⟨[⟨6⟩], 0, 0, "", 2, 2⟩).currentPage = 2 ∧
    (p15Resolve
        { p15Init with microposts := [⟨7⟩], loading := true, pending := some ⟨2, true⟩ }
        ⟨[], 0, 0, "", 1, 1⟩).page = 2 :=
  ⟨by
    have h := c8_currentPage_advance.1
      { profileInit with
          microposts := [⟨7⟩], loadedPostIds := [7], currentPage := 1,
          isRequestInProgress := true, pending := some ⟨2, false⟩ }
      ⟨[⟨7⟩], 0, 0, "", 1, 1⟩ ⟨2, false⟩ rfl rfl (by decide)
    simpa using h,
   by
    have h := c8_currentPage_advance.2.1
      { profileInit with
          microposts := [⟨7⟩], loadedPostIds := [7], currentPage := 1,
          isRequestInProgress := true, pending := some ⟨2, false⟩ }
      ⟨[⟨6⟩], 0, 0, "", 2, 2⟩ ⟨2, false⟩ rfl rfl (by decide)
    simpa using h,
   c8_currentPage_advance.2.2
     { p15Init with microposts := [⟨7⟩], loading := true, pending := some ⟨2, true⟩ }
     ⟨[], 0, 0, "", 1, 1⟩ 2 rfl⟩

/-- Claim C9 counterexample: a fulfilled fetch whose payload has three
items but total_count 0 yields hasMore = false in the slice, although
the page itself was non-empty — the claimed non-empty-page fallback does
not exist. -/
theorem c9_no_fallback_on_zero_total :
    (sliceReduce sliceInit
        (.fetchFulfilled ⟨[mp 1, mp 2, mp 3], ⟨0, 0, 0, 0⟩⟩)).hasMore = false ∧
    0 < [mp 1, mp 2, mp 3].length := by decide

/-- Claim C9 (amended): the merge steps compute hasMore without the
claimed fallback — the slice always uses page length < payload
total_count (false when total_count is zero, whatever the page);
usePagination always uses page-nonempty, whatever total_count; and the
home screen's getPosts does not update hasMore or the items at all when
total_count is zero (only the module-level limit is bumped). -/
theorem c9_hasMore_computation :
    (∀ (s : SliceState) (p : FetchPayload),
      (sliceReduce s (.fetchFulfilled p)).hasMore =
        decide (p.microposts.length < p.metadata.total_count)) ∧
    (∀ (s : UPState) (r : ListResponse) (b : Bool),
      (upApplySuccess s r b).hasMore = decide (0 < r.feed_items.length)) ∧
    (∀ (s : HomeState) (r : ListResponse), r.total_count = 0 → s.hasMore = true →
      homeGetPosts s r = { s with limitVar := s.limitVar + 5 }) := by
  refine ⟨fun s p => rfl, fun s r b => rfl, ?_⟩
  intro s r h1 h2
  simp [homeGetPosts, h1, h2]

/-- Witness for C9: a non-empty page with zero total gives false in the
slice, true in usePagination, and is dropped by the home screen. -/
theorem c9_hasMore_computation_witness :
    (sliceReduce sliceInit (.fetchFulfilled ⟨[mp 4], ⟨0, 0, 0, 0⟩⟩)).hasMore =
      decide ([mp 4].length < (0 : Nat)) ∧
    (upApplySuccess upInit ⟨[⟨4⟩], 0, 0, "", 0, 0⟩ false).hasMore =
      decide (0 < [(⟨4⟩ : Post)].length) ∧
    homeGetPosts homeInit ⟨[⟨4⟩], 0, 0, "", 0, 0⟩ =
      { homeInit with limitVar := homeInit.limitVar + 5 } :=
  ⟨c9_hasMore_computation.1 sliceInit ⟨[mp 4], ⟨0, 0, 0, 0⟩⟩,
   c9_hasMore_computation.2.1 upInit ⟨[⟨4⟩], 0, 0, "", 0, 0⟩ false,
   c9_hasMore_computation.2.2 homeInit ⟨[⟨4⟩], 0, 0, "", 0, 0⟩ rfl rfl⟩

end ExpoSocial
